import Mathlib

/-!
Shallow embedding of the mediasoup worker data plane covered by the claims:
`RTC::SimpleConsumer` (src/worker/src/RTC/SimpleConsumer.cpp), the inline part of
`RTC::RtpStream` (src/worker/include/RTC/RtpStream.hpp) and
`RTC::RtpEncodingParameters` (src/worker/src/RTC/RtpDictionaries/RtpEncodingParameters.cpp).

Machine integers are modelled as `Nat` with explicit reduction modulo `2^32` / `2^64`
where the C++ arithmetic can overflow.  `DepLibUV::GetTime()` is passed in as the
`now : Nat` argument (monotonic milliseconds).  Collaborating classes whose sources are
not part of this repository snapshot (`RTC::SeqManager`, the codec `EncodingContext`,
`RtpPacket::EncodePayload`/`RestorePayload`, `RtpStreamSend`) are modelled from the
specification text; each such definition carries a doc comment saying so.
-/

namespace Mediasoup

def uint16Mod : Nat := 65536

def uint32Mod : Nat := 4294967296

def uint64Mod : Nat := 18446744073709551616

/-- One operation applied to a sequence-number / timestamp remapper by its owning
consumer.  The trace of these operations records, in call order, which remapper
methods `SimpleConsumer::SendRtpPacket` invoked. -/
inductive MOp where
  | sync (n : Nat)
  | drop (n : Nat)
  | offset (n : Nat)
  | input (n : Nat)
deriving DecidableEq

/-- Modelled from the spec: `RTC::SeqManager` (the type of `rtpSeqManager` and
`rtpTimestampManager`) is not among the sources; §4.3 "Remapper" describes its state
as `base_in`, `base_out`, `max_in` and a set of dropped inputs, with wrap modulus
`M = 2^16` for sequence numbers and `2^32` for timestamps.  In addition to that state
the model keeps `trace`, the list of operations applied so far, so that theorems can
state which remapper calls a `SendRtpPacket` execution performed. -/
structure RtpSyncManager where
  wrapMod : Nat := uint16Mod
  baseIn : Nat := 0
  baseOut : Nat := 0
  maxIn : Nat := 0
  lastOut : Nat := 0
  dropped : List Nat := []
  trace : List MOp := []
deriving DecidableEq

/-- Modelled from the spec: `Sync(new_in)` sets `base_in = new_in`,
`base_out = last_out + 1` and forgets the dropped window. -/
def RtpSyncManager.Sync (m : RtpSyncManager) (n : Nat) : RtpSyncManager :=
  { m with
    baseIn := n
    baseOut := (m.lastOut + 1) % m.wrapMod
    maxIn := n
    dropped := []
    trace := m.trace ++ [MOp.sync n] }

/-- Modelled from the spec: `Offset(delta)` adds `delta` to `base_out`. -/
def RtpSyncManager.Offset (m : RtpSyncManager) (d : Nat) : RtpSyncManager :=
  { m with
    baseOut := (m.baseOut + d) % m.wrapMod
    trace := m.trace ++ [MOp.offset d] }

/-- Modelled from the spec: `Drop(x)` remembers `x` as skipped so that later inputs
after `x` are shifted down. -/
def RtpSyncManager.Drop (m : RtpSyncManager) (n : Nat) : RtpSyncManager :=
  { m with
    dropped := m.dropped ++ [n]
    trace := m.trace ++ [MOp.drop n] }

/-- Position of an input in the current cycle, relative to `base_in` (wrapping). -/
def RtpSyncManager.relPos (m : RtpSyncManager) (n : Nat) : Nat :=
  (n % m.wrapMod + m.wrapMod - m.baseIn % m.wrapMod) % m.wrapMod

/-- Modelled from the spec: for an accepted input `x`,
`out = base_out + ((x - base_in) mod M) - dropped_within_window(x)`, where the dropped
window count is realised as the number of recorded dropped inputs at or before `x` in
the current cycle.  Returns the updated manager and the remapped output. -/
def RtpSyncManager.Input (m : RtpSyncManager) (n : Nat) : RtpSyncManager × Nat :=
  let pos := m.relPos n
  let droppedBefore := (m.dropped.filter (fun d => m.relPos d ≤ pos)).length
  let out := (m.baseOut + pos + m.wrapMod - droppedBefore % m.wrapMod) % m.wrapMod
  ({ m with
      maxIn := max m.maxIn n
      lastOut := out
      trace := m.trace ++ [MOp.input n] },
    out)

/-- Whether a remapper trace fragment contains an `Offset` call. -/
def containsOffsetOp : List MOp → Bool
  | [] => false
  | MOp.offset _ :: _ => true
  | _ :: rest => containsOffsetOp rest

/-- Modelled from the spec: the codec-specific `EncodingContext`
(`RTC::Codecs::EncodingContext`, not among the sources) is a payload rewriter hidden
behind an interface (§1).  `encode` gives its effect on payload bytes — `none` means
the packet must be dropped — and `syncFlag` records whether `SyncRequired()` has been
called on it. -/
structure EncodingContext where
  encode : List Nat → Option (List Nat)
  syncFlag : Bool := false

/-- Modelled from the spec: `encodingContext.SyncRequired()` marks the context as
needing a resynchronisation point. -/
def EncodingContext.SyncRequired (ctx : EncodingContext) : EncodingContext :=
  { ctx with syncFlag := true }

/-- An RTP packet as observed through the accessors `SimpleConsumer::SendRtpPacket`
uses: ssrc, sequence number, timestamp, payload type, key-frame bit and payload bytes.
`savedPayload` models the original payload an `RtpPacket` remembers after
`EncodePayload` rewrote it, which `RestorePayload` puts back. -/
structure RtpPacket where
  ssrc : Nat := 0
  sequenceNumber : Nat := 0
  timestamp : Nat := 0
  payloadType : Nat := 0
  isKeyFrame : Bool := false
  payload : List Nat := []
  savedPayload : Option (List Nat) := none
deriving DecidableEq

/-- Modelled from the spec: `RtpPacket::EncodePayload(encodingContext)` (not among the
sources) rewrites the payload through the context's codec handler and fails (returning
`false`, leaving the packet untouched) when the packet must be dropped; on success the
packet remembers the original payload so it can be restored. -/
def RtpPacket.EncodePayload (p : RtpPacket) (ctx : EncodingContext) : RtpPacket × Bool :=
  match ctx.encode p.payload with
  | none => (p, false)
  | some pl => ({ p with payload := pl, savedPayload := some p.payload }, true)

/-- Modelled from the spec: `RtpPacket::RestorePayload()` restores the payload bytes
saved when `EncodePayload` rewrote them (§4.3 step 8). -/
def RtpPacket.RestorePayload (p : RtpPacket) : RtpPacket :=
  match p.savedPayload with
  | some pl => { p with payload := pl, savedPayload := none }
  | none => p

inductive MediaKind where
  | audio
  | video
deriving DecidableEq

/-- State of a `RTC::SimpleConsumer` as read and written by the member functions in
SimpleConsumer.cpp.  Fields of collaborators are flattened to what the file accesses:
`active` is the result of `IsActive()`; `hasProducerRtpStream` whether
`producerRtpStream` is non-null; `streamMaxPacketMs`, `streamClockRate` are the egress
stream's `GetMaxPacketMs()` / `GetClockRate()`; `streamAccepts` abstracts the outcome
of `rtpStream->ReceivePacket(packet)` (RtpStreamSend.cpp is not among the sources);
`reportAvailable` abstracts `rtpStream->GetRtcpSenderReport(now)` returning non-null. -/
structure SimpleConsumer where
  active : Bool := true
  kind : MediaKind := MediaKind.video
  supportedCodecPayloadTypes : List Nat := []
  syncRequired : Bool := false
  keyFrameSupported : Bool := false
  rtpSeqManager : RtpSyncManager := {}
  rtpTimestampManager : RtpSyncManager := { wrapMod := uint32Mod }
  encodingContext : Option EncodingContext := none
  encodingSsrc : Nat := 0
  consumableSsrc : Nat := 0
  hasProducerRtpStream : Bool := false
  streamMaxPacketMs : Nat := 0
  streamClockRate : Nat := 0
  streamAccepts : Bool := true
  streamPaused : Bool := false
  lastRtcpSentTime : Nat := 0
  maxRtcpInterval : Nat := 0
  reportAvailable : Bool := false

/-- The sync block of `SimpleConsumer::SendRtpPacket` (lines 155–177): latch both
remappers on the packet's sequence number and timestamp, add the elapsed-time offset
to the timestamp remapper when the egress stream has ever emitted
(`GetMaxPacketMs() != 0`), tell the encoding context a sync happened, and clear
`syncRequired`.  The `uint64` subtraction and multiplication wrap as in C++. -/
def SimpleConsumer.syncStep (c : SimpleConsumer) (now : Nat) (p : RtpPacket) :
    SimpleConsumer :=
  let c1 := { c with
    rtpSeqManager := c.rtpSeqManager.Sync p.sequenceNumber
    rtpTimestampManager := c.rtpTimestampManager.Sync p.timestamp }
  let c2 :=
    if c1.streamMaxPacketMs ≠ 0 then
      let diffMs := (now % uint64Mod + uint64Mod - c1.streamMaxPacketMs % uint64Mod) % uint64Mod
      let diffTs := diffMs * (c1.streamClockRate % uint32Mod) % uint64Mod / 1000
      { c1 with rtpTimestampManager := c1.rtpTimestampManager.Offset diffTs }
    else c1
  let c3 :=
    match c2.encodingContext with
    | some ctx => { c2 with encodingContext := some ctx.SyncRequired }
    | none => c2
  { c3 with syncRequired := false }

/-- The tail of `SimpleConsumer::SendRtpPacket` after the remappers were updated
(lines 191–247): remap sequence number and timestamp, save the original header
fields, rewrite the packet with the encoding's ssrc and the remapped values, hand it
to the egress stream and — when it accepts — to the listener, then restore the
original fields, and the payload when an encoding context is attached. -/
def SimpleConsumer.emitPhase (c1 : SimpleConsumer) (p : RtpPacket) :
    SimpleConsumer × RtpPacket × Option RtpPacket :=
  let si := c1.rtpSeqManager.Input p.sequenceNumber
  let ti := c1.rtpTimestampManager.Input p.timestamp
  let c2 := { c1 with rtpSeqManager := si.1, rtpTimestampManager := ti.1 }
  let origSsrc := p.ssrc
  let origSeq := p.sequenceNumber
  let origTimestamp := p.timestamp
  let p2 := { p with ssrc := c2.encodingSsrc, sequenceNumber := si.2, timestamp := ti.2 }
  let emitted := if c2.streamAccepts then some p2 else none
  let p3 := { p2 with ssrc := origSsrc, sequenceNumber := origSeq, timestamp := origTimestamp }
  let p4 := if c2.encodingContext.isSome then p3.RestorePayload else p3
  (c2, p4, emitted)

/-- The payload-rewrite step of `SimpleConsumer::SendRtpPacket` (lines 183–189)
followed by the emit phase: with an encoding context attached, a failed
`EncodePayload` records the packet's sequence number and timestamp as dropped in both
remappers and returns without emitting. -/
def SimpleConsumer.sendCore (c1 : SimpleConsumer) (p : RtpPacket) :
    SimpleConsumer × RtpPacket × Option RtpPacket :=
  match c1.encodingContext with
  | some ctx =>
    let r := p.EncodePayload ctx
    if r.2 then c1.emitPhase r.1
    else
      ({ c1 with
          rtpSeqManager := c1.rtpSeqManager.Drop p.sequenceNumber
          rtpTimestampManager := c1.rtpTimestampManager.Drop p.timestamp },
        r.1, none)
  | none => c1.emitPhase p

/-- `SimpleConsumer::SendRtpPacket` (SimpleConsumer.cpp lines 127–248).  Returns the
consumer state after the call, the packet as left by the call, and the packet handed
to `listener->OnConsumerSendRtpPacket` when one was emitted. -/
def SimpleConsumer.SendRtpPacket (c : SimpleConsumer) (now : Nat) (p : RtpPacket) :
    SimpleConsumer × RtpPacket × Option RtpPacket :=
  if c.active = false then (c, p, none)
  else if c.supportedCodecPayloadTypes.contains p.payloadType = false then (c, p, none)
  else if c.syncRequired && c.keyFrameSupported && !p.isKeyFrame then (c, p, none)
  else
    let c1 := if c.syncRequired then c.syncStep now p else c
    c1.sendCore p

/-- The compound RTCP packet being filled by `GetRtcp`: sender reports and SDES
chunks added so far, identified by the sending stream's ssrc. -/
structure CompoundPacket where
  senderReports : List Nat := []
  sdesChunks : List Nat := []
deriving DecidableEq

/-- `SimpleConsumer::GetRtcp` (SimpleConsumer.cpp lines 250–270).  The C++ guard is
`static_cast<float>((now - lastRtcpSentTime) * 1.15) < maxRtcpInterval`; `1.15` is
modelled as the exact rational `23/20`, which agrees with the `double`/`float`
evaluation for elapsed times below `2^24` ms.  The `uint64` subtraction wraps as in
C++. -/
def SimpleConsumer.GetRtcp (c : SimpleConsumer) (pkt : CompoundPacket) (now : Nat) :
    SimpleConsumer × CompoundPacket :=
  if 23 * ((now % uint64Mod + uint64Mod - c.lastRtcpSentTime % uint64Mod) % uint64Mod)
      < 20 * c.maxRtcpInterval then
    (c, pkt)
  else if c.reportAvailable = false then (c, pkt)
  else
    ({ c with lastRtcpSentTime := now },
      { pkt with
          senderReports := pkt.senderReports ++ [c.encodingSsrc]
          sdesChunks := pkt.sdesChunks ++ [c.encodingSsrc] })

/-- `SimpleConsumer::RequestKeyFrame` (SimpleConsumer.cpp lines 430–440): forwards
`OnConsumerKeyFrameRequested(this, consumableRtpEncodings[0].ssrc)` only when the
consumer is active, a producer stream is bound and the media kind is video; returns
the mapped ssrc handed upward, or `none` when it is a no-op. -/
def SimpleConsumer.RequestKeyFrame (c : SimpleConsumer) : Option Nat :=
  if c.active = false ∨ c.hasProducerRtpStream = false ∨ c.kind ≠ MediaKind.video then none
  else some c.consumableSsrc

/-- Result of `SimpleConsumer::Resumed`: the consumer state afterwards, whether
`RequestKeyFrame()` was invoked, and the key-frame request it forwarded upward (if
any). -/
structure ResumedResult where
  consumer : SimpleConsumer
  calledRequestKeyFrame : Bool
  keyFrameRequest : Option Nat

/-- `SimpleConsumer::Resumed(wasProducer)` (SimpleConsumer.cpp lines 350–364):
resume the egress stream, set `syncRequired`, and call `RequestKeyFrame()` unless the
resume was triggered by the producer resuming. -/
def SimpleConsumer.Resumed (c : SimpleConsumer) (wasProducer : Bool) : ResumedResult :=
  let c2 := { c with streamPaused := false, syncRequired := true }
  if wasProducer = false then
    { consumer := c2, calledRequestKeyFrame := true, keyFrameRequest := c2.RequestKeyFrame }
  else
    { consumer := c2, calledRequestKeyFrame := false, keyFrameRequest := none }

/-- `SimpleConsumer::TransportConnected` (SimpleConsumer.cpp lines 102–107): just
requests a key frame. -/
def SimpleConsumer.TransportConnected (c : SimpleConsumer) : Option Nat :=
  c.RequestKeyFrame

/-- `SimpleConsumer::ReceiveKeyFrameRequest` (SimpleConsumer.cpp lines 297–307):
when active, counts the request on the egress stream and calls `RequestKeyFrame()`. -/
def SimpleConsumer.ReceiveKeyFrameRequest (c : SimpleConsumer) : Option Nat :=
  if c.active = false then none else c.RequestKeyFrame

/-- The `CONSUMER_REQUEST_KEY_FRAME` arm of `SimpleConsumer::HandleRequest`
(SimpleConsumer.cpp lines 85–92): calls `RequestKeyFrame()` and accepts the request. -/
def handleConsumerRequestKeyFrame (c : SimpleConsumer) : Option Nat :=
  c.RequestKeyFrame

/-- The RFC 3550 A.1 fields of `RTC::RtpStream` (RtpStream.hpp lines 103–108).
`maxSeq` is `uint16_t`, the other counters are `uint32_t`. -/
structure RtpStreamState where
  maxSeq : Nat := 0
  cycles : Nat := 0
  baseSeq : Nat := 0
  badSeq : Nat := 0
  maxPacketTs : Nat := 0
  maxPacketMs : Nat := 0
deriving DecidableEq

/-- `RtpStream::GetExpectedPackets` (RtpStream.hpp lines 182–185):
`(this->cycles + this->maxSeq) - this->baseSeq + 1` evaluated in `uint32_t`
arithmetic (with `maxSeq` promoted from `uint16_t`), then widened to `size_t`. -/
def RtpStreamState.GetExpectedPackets (s : RtpStreamState) : Nat :=
  (((s.cycles % uint32Mod + s.maxSeq % uint16Mod) % uint32Mod
      + uint32Mod - s.baseSeq % uint32Mod) % uint32Mod + 1) % uint32Mod

/-- Modelled from the spec: the JSON object `RtpRtxParameters` is parsed from
(`src/worker/src/RTC/RtpDictionaries/RtpRtxParameters.cpp` is not among the sources):
an optional unsigned `ssrc` member. -/
structure RtxJson where
  ssrc : Option Nat := none
deriving DecidableEq

/-- Modelled from the spec: `RTC::RtpRtxParameters` carries the optional RTX stream
ssrc (§3 Producer/Consumer attributes, "optional `rtx.ssrc`"). -/
structure RtpRtxParameters where
  ssrc : Nat := 0
deriving DecidableEq

/-- Modelled from the spec: parsing `RtpRtxParameters` from JSON reads the optional
unsigned `ssrc` member (`get<uint32_t>` truncates modulo `2^32`), defaulting to 0. -/
def RtpRtxParameters.ofJson (j : RtxJson) : RtpRtxParameters :=
  match j.ssrc with
  | some n => { ssrc := n % uint32Mod }
  | none => { ssrc := 0 }

/-- Modelled from the spec: `RtpRtxParameters::FillJson` writes the `ssrc` member when
it is non-zero, in the style of the sibling dictionary serialisers. -/
def RtpRtxParameters.fillJson (r : RtpRtxParameters) : RtxJson :=
  { ssrc := if r.ssrc ≠ 0 then some r.ssrc else none }

/-- The JSON object read by `RtpEncodingParameters::RtpEncodingParameters(json&)` and
written by `FillJson`.  A field is `some` when the member is present with the type the
parser checks for (`is_number_unsigned` for `ssrc`/`codecPayloadType`/`maxBitrate`,
`is_string` for `rid`, `is_object` for `rtx`, `is_number` for `maxFramerate`); a
member that is absent or of the wrong type is `none`, since the parser skips it.
JSON `double` values are modelled as exact rationals. -/
structure EncodingJson where
  ssrc : Option Nat := none
  rid : Option String := none
  codecPayloadType : Option Nat := none
  rtx : Option RtxJson := none
  maxBitrate : Option Nat := none
  maxFramerate : Option Rat := none
deriving DecidableEq

/-- `RTC::RtpEncodingParameters` (member fields of RtpDictionaries, with the defaults
the parser leaves in place for absent members). -/
structure RtpEncodingParameters where
  ssrc : Nat := 0
  rid : String := ""
  codecPayloadType : Nat := 0
  hasCodecPayloadType : Bool := false
  rtx : RtpRtxParameters := {}
  hasRtx : Bool := false
  maxBitrate : Nat := 0
  maxFramerate : Rat := 0
deriving DecidableEq

/-- `RtpEncodingParameters::RtpEncodingParameters(json& data)`
(RtpEncodingParameters.cpp lines 12–56): every member is optional; numeric gets
truncate to the member's C++ type (`uint32_t` for `ssrc`/`maxBitrate`, `uint8_t` for
`codecPayloadType`); `hasCodecPayloadType`/`hasRtx` are set exactly when the member
was present. -/
def RtpEncodingParameters.ofJson (j : EncodingJson) : RtpEncodingParameters where
  ssrc := match j.ssrc with
    | some n => n % uint32Mod
    | none => 0
  rid := j.rid.getD ""
  codecPayloadType := match j.codecPayloadType with
    | some n => n % 256
    | none => 0
  hasCodecPayloadType := j.codecPayloadType.isSome
  rtx := match j.rtx with
    | some r => RtpRtxParameters.ofJson r
    | none => {}
  hasRtx := j.rtx.isSome
  maxBitrate := match j.maxBitrate with
    | some n => n % uint32Mod
    | none => 0
  maxFramerate := j.maxFramerate.getD 0

/-- `RtpEncodingParameters::FillJson` (RtpEncodingParameters.cpp lines 58–88):
`ssrc`, `rid` and `maxBitrate` are written when non-zero / non-empty,
`codecPayloadType` when `hasCodecPayloadType`, `rtx` when `hasRtx`, and
`maxFramerate` when strictly positive. -/
def RtpEncodingParameters.fillJson (e : RtpEncodingParameters) : EncodingJson where
  ssrc := if e.ssrc ≠ 0 then some e.ssrc else none
  rid := if e.rid ≠ "" then some e.rid else none
  codecPayloadType := if e.hasCodecPayloadType then some e.codecPayloadType else none
  rtx := if e.hasRtx then some e.rtx.fillJson else none
  maxBitrate := if e.maxBitrate ≠ 0 then some e.maxBitrate else none
  maxFramerate := if e.maxFramerate > 0 then some e.maxFramerate else none

/-- The mediasoup error kinds raised by control-surface validation (§7). -/
inductive MsError where
  | typeError (msg : String)
deriving DecidableEq

/-- Modelled from the spec: `RTC::RTCP::MaxAudioIntervalMs` (audio RTCP check
interval, 5 s per §4.1 "Timers"; the RTCP header defining it is not among the
sources). -/
def maxAudioIntervalMs : Nat := 5000

/-- Modelled from the spec: `RTC::RTCP::MaxVideoIntervalMs` (video RTCP check
interval, 1 s per §4.1 "Timers"). -/
def maxVideoIntervalMs : Nat := 1000

/-- What a successful `SimpleConsumer` construction produces, as far as the claims
need: the chosen RTCP interval and the `RtpStreamSend` created by `CreateRtpStream`
(identified by the ssrc it sends with). -/
structure SimpleConsumerInit where
  maxRtcpInterval : Nat
  rtpStreamSsrc : Nat
deriving DecidableEq

/-- `SimpleConsumer::SimpleConsumer` (SimpleConsumer.cpp lines 14–31): throws a
`TypeError` — before any `RtpStreamSend` is created — unless `consumableRtpEncodings`
has exactly one encoding; otherwise picks the RTCP interval by media kind and creates
the egress stream. -/
def simpleConsumerConstructor (kind : MediaKind)
    (consumableRtpEncodings : List RtpEncodingParameters) (encodingSsrc : Nat) :
    Except MsError SimpleConsumerInit :=
  if consumableRtpEncodings.length ≠ 1 then
    Except.error (MsError.typeError "invalid consumableRtpEncodings with size != 1")
  else
    Except.ok
      { maxRtcpInterval :=
          if kind = MediaKind.audio then maxAudioIntervalMs else maxVideoIntervalMs
        rtpStreamSsrc := encodingSsrc }

/-- Concrete consumer used by the counterexample to the unguarded timestamp-offset
claim: sync pending, key frames not required, and an egress stream that has never
emitted a packet (`GetMaxPacketMs() == 0`). -/
def offsetCounterexampleConsumer : SimpleConsumer :=
  { active := true
    supportedCodecPayloadTypes := [96]
    syncRequired := true
    keyFrameSupported := false
    streamMaxPacketMs := 0
    streamClockRate := 90000
    streamAccepts := true }

/-- Concrete packet for the same counterexample. -/
def offsetCounterexamplePacket : RtpPacket :=
  { ssrc := 5
    sequenceNumber := 100
    timestamp := 777
    payloadType := 96
    isKeyFrame := false
    payload := [0] }

/-- Concrete consumer used by the RTCP spacing counterexample: video interval
(1000 ms), a sender report always available. -/
def rtcpCounterexampleConsumer : SimpleConsumer :=
  { lastRtcpSentTime := 0
    maxRtcpInterval := 1000
    reportAvailable := true
    encodingSsrc := 42 }

/-- The encoding-parameters value on which the JSON round-trip fails: a negative
`maxFramerate` (the parser accepts any number for `maxFramerate`, but `FillJson`
only writes it when strictly positive). -/
def negativeFramerateEncoding : RtpEncodingParameters :=
  { maxFramerate := -1 }

/-- Concrete active consumer with an encoding context that rewrites the payload,
used to witness the restore invariant on the full emit path. -/
def restoreWitnessConsumer : SimpleConsumer :=
  { active := true
    supportedCodecPayloadTypes := [96]
    syncRequired := true
    keyFrameSupported := true
    encodingContext := some { encode := fun pl => some (1 :: pl) }
    encodingSsrc := 9999
    streamMaxPacketMs := 100
    streamClockRate := 90000
    streamAccepts := true }

/-- Concrete key-frame packet matching `restoreWitnessConsumer`. -/
def restoreWitnessPacket : RtpPacket :=
  { ssrc := 1
    sequenceNumber := 7
    timestamp := 70
    payloadType := 96
    isKeyFrame := true
    payload := [3, 4] }

/-- Concrete consumer whose encoding context refuses every payload, used to witness
the encode-failure path. -/
def encodeFailureConsumer : SimpleConsumer :=
  { active := true
    supportedCodecPayloadTypes := [96]
    syncRequired := false
    encodingContext := some { encode := fun _ => none } }

/-- Concrete packet matching `encodeFailureConsumer`. -/
def encodeFailurePacket : RtpPacket :=
  { sequenceNumber := 55
    timestamp := 5500
    payloadType := 96
    payload := [9] }

/- ------------------------------------------------------------------ -/
/- Helper lemmas shared by the claim theorems.                         -/
/- ------------------------------------------------------------------ -/

theorem sync_trace (m : RtpSyncManager) (n : Nat) :
    (m.Sync n).trace = m.trace ++ [MOp.sync n] := rfl

theorem drop_trace (m : RtpSyncManager) (n : Nat) :
    (m.Drop n).trace = m.trace ++ [MOp.drop n] := rfl

theorem offset_trace (m : RtpSyncManager) (n : Nat) :
    (m.Offset n).trace = m.trace ++ [MOp.offset n] := rfl

theorem input_trace (m : RtpSyncManager) (n : Nat) :
    (m.Input n).1.trace = m.trace ++ [MOp.input n] := rfl

/-- After the remappers were updated, `sendCore` either records a drop of the
packet's own sequence number and timestamp (encode failure) or feeds them through
`Input` (emit path); in both cases the rest of the consumer state is untouched. -/
theorem sendCore_consumer (c1 : SimpleConsumer) (p : RtpPacket) :
    (c1.sendCore p).1 =
        { c1 with
          rtpSeqManager := c1.rtpSeqManager.Drop p.sequenceNumber
          rtpTimestampManager := c1.rtpTimestampManager.Drop p.timestamp }
    ∨ (c1.sendCore p).1 =
        { c1 with
          rtpSeqManager := (c1.rtpSeqManager.Input p.sequenceNumber).1
          rtpTimestampManager := (c1.rtpTimestampManager.Input p.timestamp).1 } := by
  rcases hctx : c1.encodingContext with _ | ctx
  · right
    simp [SimpleConsumer.sendCore, hctx, SimpleConsumer.emitPhase]
  · rcases henc : ctx.encode p.payload with _ | pl
    · left
      simp [SimpleConsumer.sendCore, hctx, RtpPacket.EncodePayload, henc]
    · right
      simp [SimpleConsumer.sendCore, hctx, RtpPacket.EncodePayload, henc,
        SimpleConsumer.emitPhase]

/-- `sendCore` hands back the packet it was given, with all header fields and the
payload restored. -/
theorem sendCore_packet (c1 : SimpleConsumer) (p : RtpPacket)
    (h : p.savedPayload = none) : (c1.sendCore p).2.1 = p := by
  rcases hctx : c1.encodingContext with _ | ctx
  · simp [SimpleConsumer.sendCore, hctx, SimpleConsumer.emitPhase]
  · rcases henc : ctx.encode p.payload with _ | pl
    · simp [SimpleConsumer.sendCore, hctx, RtpPacket.EncodePayload, henc]
    · simp [SimpleConsumer.sendCore, hctx, RtpPacket.EncodePayload, henc,
        SimpleConsumer.emitPhase, RtpPacket.RestorePayload, h]
      rw [← h]

/-- Characterisation of the sync block under the natural clock hypotheses (a
monotonic `uint64` clock and no overflow of `diffMs * clockRate`). -/
theorem syncStep_spec (c : SimpleConsumer) (now : Nat) (p : RtpPacket)
    (hnow : now < uint64Mod) (hle : c.streamMaxPacketMs ≤ now)
    (hcr : c.streamClockRate < uint32Mod)
    (hprod : (now - c.streamMaxPacketMs) * c.streamClockRate < uint64Mod) :
    c.syncStep now p =
      { c with
        rtpSeqManager := c.rtpSeqManager.Sync p.sequenceNumber
        rtpTimestampManager :=
          if c.streamMaxPacketMs ≠ 0 then
            (c.rtpTimestampManager.Sync p.timestamp).Offset
              ((now - c.streamMaxPacketMs) * c.streamClockRate / 1000)
          else c.rtpTimestampManager.Sync p.timestamp
        encodingContext := c.encodingContext.map EncodingContext.SyncRequired
        syncRequired := false } := by
  have hd : (now % uint64Mod + uint64Mod - c.streamMaxPacketMs % uint64Mod) % uint64Mod
      = now - c.streamMaxPacketMs := by
    have h1 : now % uint64Mod = now := Nat.mod_eq_of_lt hnow
    have h2 : c.streamMaxPacketMs % uint64Mod = c.streamMaxPacketMs :=
      Nat.mod_eq_of_lt (lt_of_le_of_lt hle hnow)
    rw [h1, h2]
    simp only [uint64Mod] at *
    omega
  have hcr2 : c.streamClockRate % uint32Mod = c.streamClockRate := Nat.mod_eq_of_lt hcr
  have hpr2 : (now - c.streamMaxPacketMs) * c.streamClockRate % uint64Mod
      = (now - c.streamMaxPacketMs) * c.streamClockRate := Nat.mod_eq_of_lt hprod
  by_cases h0 : c.streamMaxPacketMs = 0 <;>
    rcases hctx : c.encodingContext with _ | ctx <;>
      simp [SimpleConsumer.syncStep, h0, hctx, hd, hcr2, hpr2]

theorem syncStep_encodingContext (c : SimpleConsumer) (now : Nat) (p : RtpPacket) :
    (c.syncStep now p).encodingContext = c.encodingContext.map EncodingContext.SyncRequired := by
  by_cases h0 : c.streamMaxPacketMs = 0 <;>
    rcases hctx : c.encodingContext with _ | ctx <;>
      simp [SimpleConsumer.syncStep, h0, hctx]

/- ------------------------------------------------------------------ -/
/- Claim theorems.                                                     -/
/- ------------------------------------------------------------------ -/

/-- C1: on every execution path of `SimpleConsumer::SendRtpPacket`, the packet left
behind when the call returns is bit-identical to the packet it received — same ssrc,
sequence number, timestamp and payload bytes.  The hypothesis says the packet enters
with no pending payload rewrite, which is how packets arrive from the producer
fan-out. -/
theorem send_rtp_packet_restores_packet (c : SimpleConsumer) (now : Nat) (p : RtpPacket)
    (h : p.savedPayload = none) : (c.SendRtpPacket now p).2.1 = p := by
  unfold SimpleConsumer.SendRtpPacket
  split
  · rfl
  · split
    · rfl
    · split
      · rfl
      · exact sendCore_packet _ p h

/-- Witness for C1 at a concrete consumer with an attached encoding context that
rewrites the payload, on the full emit path. -/
theorem send_rtp_packet_restores_packet_witness :
    (restoreWitnessConsumer.SendRtpPacket 1100 restoreWitnessPacket).2.1
      = restoreWitnessPacket :=
  send_rtp_packet_restores_packet restoreWitnessConsumer 1100 restoreWitnessPacket rfl

/-- C2 (amended): for a packet arriving while `syncRequired` is set, with the
consumer active and the payload type supported: if `keyFrameSupported` and the packet
is not a key frame, the call returns with everything unchanged (the packet is dropped
and `syncRequired` stays set); otherwise the call latches `rtpSeqManager.Sync(seq)`
and `rtpTimestampManager.Sync(ts)`, adds `diffMs * clockRate / 1000` (with
`diffMs = now - rtpStream.maxPacketMs`) as an offset to the timestamp manager — but
only when `rtpStream.maxPacketMs` is non-zero —, calls
`encodingContext.SyncRequired()` when a context is present, and clears
`syncRequired`. -/
theorem send_rtp_packet_sync_behaviour (c : SimpleConsumer) (now : Nat) (p : RtpPacket)
    (hact : c.active = true)
    (hpt : c.supportedCodecPayloadTypes.contains p.payloadType = true)
    (hsync : c.syncRequired = true)
    (hnow : now < uint64Mod) (hle : c.streamMaxPacketMs ≤ now)
    (hcr : c.streamClockRate < uint32Mod)
    (hprod : (now - c.streamMaxPacketMs) * c.streamClockRate < uint64Mod) :
    (c.keyFrameSupported = true → p.isKeyFrame = false →
      c.SendRtpPacket now p = (c, p, none))
    ∧ ((c.keyFrameSupported && !p.isKeyFrame) = false →
      (c.SendRtpPacket now p).1.syncRequired = false
      ∧ (∃ post, (c.SendRtpPacket now p).1.rtpSeqManager.trace
          = c.rtpSeqManager.trace ++ MOp.sync p.sequenceNumber :: post)
      ∧ (∃ post, (c.SendRtpPacket now p).1.rtpTimestampManager.trace
          = c.rtpTimestampManager.trace ++ MOp.sync p.timestamp
              :: ((if c.streamMaxPacketMs ≠ 0 then
                    [MOp.offset ((now - c.streamMaxPacketMs) * c.streamClockRate / 1000)]
                  else []) ++ post))
      ∧ (∀ ctx, c.encodingContext = some ctx →
          (c.SendRtpPacket now p).1.encodingContext = some ctx.SyncRequired)) := by
  constructor
  · intro hkf hnk
    simp [SimpleConsumer.SendRtpPacket, hact, hpt, hsync, hkf, hnk]
  · intro hgate
    have hmem : p.payloadType ∈ c.supportedCodecPayloadTypes := by simpa using hpt
    have hrun : c.SendRtpPacket now p = (c.syncStep now p).sendCore p := by
      simp [SimpleConsumer.SendRtpPacket, hact, hpt, hmem, hsync, hgate]
    have hspec := syncStep_spec c now p hnow hle hcr hprod
    rw [hrun]
    rcases sendCore_consumer (c.syncStep now p) p with h | h <;> rw [h] <;>
      rw [hspec] <;>
        refine ⟨rfl, ?_, ?_, ?_⟩
    · exact ⟨[MOp.drop p.sequenceNumber], by simp [RtpSyncManager.Sync, RtpSyncManager.Drop]⟩
    · refine ⟨[MOp.drop p.timestamp], ?_⟩
      by_cases h0 : c.streamMaxPacketMs = 0 <;>
        simp [h0, RtpSyncManager.Sync, RtpSyncManager.Drop, RtpSyncManager.Offset]
    · intro ctx hctx
      simp [hctx]
    · exact ⟨[MOp.input p.sequenceNumber], by simp [RtpSyncManager.Sync, input_trace]⟩
    · refine ⟨[MOp.input p.timestamp], ?_⟩
      by_cases h0 : c.streamMaxPacketMs = 0 <;>
        simp [h0, RtpSyncManager.Sync, RtpSyncManager.Offset, input_trace]
    · intro ctx hctx
      simp [hctx]

/-- Counterexample to C2 as stated: with `syncRequired` set, an active consumer whose
egress stream has never sent a packet (`maxPacketMs == 0`), and `now = 5000`, the
claim demands that `diffMs * clockRate / 1000 = 5000 * 90000 / 1000` be added as an
offset to the timestamp manager; the code performs no `Offset` call at all — the
timestamp manager receives exactly a `Sync` and an `Input`. -/
theorem sync_offset_skipped_when_never_sent :
    offsetCounterexampleConsumer.syncRequired = true
    ∧ offsetCounterexampleConsumer.active = true
    ∧ offsetCounterexampleConsumer.supportedCodecPayloadTypes.contains
        offsetCounterexamplePacket.payloadType = true
    ∧ (offsetCounterexampleConsumer.SendRtpPacket 5000
        offsetCounterexamplePacket).1.rtpTimestampManager.trace
        = [MOp.sync 777, MOp.input 777]
    ∧ containsOffsetOp (offsetCounterexampleConsumer.SendRtpPacket 5000
        offsetCounterexamplePacket).1.rtpTimestampManager.trace = false := by
  refine ⟨rfl, rfl, rfl, ?_, ?_⟩ <;> decide

/-- Witness for the amended C2 at a concrete consumer whose egress stream has
already emitted (`maxPacketMs = 100`). -/
theorem send_rtp_packet_sync_behaviour_witness :
    (restoreWitnessConsumer.SendRtpPacket 1100 restoreWitnessPacket).1.syncRequired
      = false :=
  ((send_rtp_packet_sync_behaviour restoreWitnessConsumer 1100 restoreWitnessPacket
      rfl rfl rfl (by decide) (by decide) (by decide) (by decide)).2 (by decide)).1

/-- C9: in the sync step, the timestamp offset `diffMs * clockRate / 1000` is applied
exactly when the egress stream's `maxPacketMs` is non-zero; on a first sync before
any emission the timestamp manager receives the `Sync` latch and no offset at all. -/
theorem sync_offset_applied_iff_stream_emitted (c : SimpleConsumer) (now : Nat)
    (p : RtpPacket)
    (hact : c.active = true)
    (hpt : c.supportedCodecPayloadTypes.contains p.payloadType = true)
    (hsync : c.syncRequired = true)
    (hkf : (c.keyFrameSupported && !p.isKeyFrame) = false)
    (hnow : now < uint64Mod) (hle : c.streamMaxPacketMs ≤ now)
    (hcr : c.streamClockRate < uint32Mod)
    (hprod : (now - c.streamMaxPacketMs) * c.streamClockRate < uint64Mod) :
    (c.streamMaxPacketMs = 0 →
      ∃ post, (c.SendRtpPacket now p).1.rtpTimestampManager.trace
          = c.rtpTimestampManager.trace ++ MOp.sync p.timestamp :: post
        ∧ containsOffsetOp post = false)
    ∧ (c.streamMaxPacketMs ≠ 0 →
      ∃ post, (c.SendRtpPacket now p).1.rtpTimestampManager.trace
          = c.rtpTimestampManager.trace ++ MOp.sync p.timestamp
              :: MOp.offset ((now - c.streamMaxPacketMs) * c.streamClockRate / 1000)
                :: post) := by
  have hmem : p.payloadType ∈ c.supportedCodecPayloadTypes := by simpa using hpt
  have hrun : c.SendRtpPacket now p = (c.syncStep now p).sendCore p := by
    simp [SimpleConsumer.SendRtpPacket, hact, hpt, hmem, hsync, hkf]
  have hspec := syncStep_spec c now p hnow hle hcr hprod
  constructor
  · intro h0
    rcases sendCore_consumer (c.syncStep now p) p with h | h <;>
      rw [hrun, h, hspec]
    · exact ⟨[MOp.drop p.timestamp],
        by simp [h0, RtpSyncManager.Sync, RtpSyncManager.Drop], rfl⟩
    · exact ⟨[MOp.input p.timestamp],
        by simp [h0, RtpSyncManager.Sync, input_trace], rfl⟩
  · intro h0
    rcases sendCore_consumer (c.syncStep now p) p with h | h <;>
      rw [hrun, h, hspec]
    · exact ⟨[MOp.drop p.timestamp],
        by simp [h0, RtpSyncManager.Sync, RtpSyncManager.Drop, RtpSyncManager.Offset]⟩
    · exact ⟨[MOp.input p.timestamp],
        by simp [h0, RtpSyncManager.Sync, RtpSyncManager.Offset, input_trace]⟩

/-- Witness for C9 exercising both the never-emitted consumer (no offset) and, via
the hypotheses, the general statement at a concrete input. -/
theorem sync_offset_applied_iff_stream_emitted_witness :
    ∃ post, (offsetCounterexampleConsumer.SendRtpPacket 5000
        offsetCounterexamplePacket).1.rtpTimestampManager.trace
        = offsetCounterexampleConsumer.rtpTimestampManager.trace
            ++ MOp.sync offsetCounterexamplePacket.timestamp :: post
      ∧ containsOffsetOp post = false :=
  (sync_offset_applied_iff_stream_emitted offsetCounterexampleConsumer 5000
      offsetCounterexamplePacket rfl rfl rfl (by decide) (by decide) (by decide)
      (by decide) (by decide)).1 rfl

/-- C3 (amended): `GetRtcp` rate-limits emissions with a 15% jitter slack: whenever
it adds a sender report at time `now`, `(now - lastRtcpSentTime) * 1.15` is at least
`maxRtcpInterval` (stated with `1.15` as the exact rational `23/20`), so consecutive
emissions are separated by at least `maxRtcpInterval * 20 / 23` milliseconds — not by
the full `maxRtcpInterval`. -/
theorem get_rtcp_min_spacing (c : SimpleConsumer) (pkt : CompoundPacket) (now : Nat)
    (hn : now < uint64Mod) (hl : c.lastRtcpSentTime ≤ now)
    (hemit : (c.GetRtcp pkt now).2 ≠ pkt) :
    23 * (now - c.lastRtcpSentTime) ≥ 20 * c.maxRtcpInterval := by
  have hd : (now % uint64Mod + uint64Mod - c.lastRtcpSentTime % uint64Mod) % uint64Mod
      = now - c.lastRtcpSentTime := by
    have h1 : now % uint64Mod = now := Nat.mod_eq_of_lt hn
    have h2 : c.lastRtcpSentTime % uint64Mod = c.lastRtcpSentTime :=
      Nat.mod_eq_of_lt (lt_of_le_of_lt hl hn)
    rw [h1, h2]
    simp only [uint64Mod] at *
    omega
  by_cases hg : 23 * (now - c.lastRtcpSentTime) < 20 * c.maxRtcpInterval
  · exfalso
    simp [SimpleConsumer.GetRtcp, hd, hg] at hemit
  · omega

/-- Counterexample to C3 as stated: with the video interval of 1000 ms, a first
report is emitted at `now = 10000`; a second call at `now = 10900` emits again,
although only 900 ms — less than `maxRtcpInterval` — have elapsed since the previous
emission.  The 15% slack (`900 * 1.15 = 1035 ≥ 1000`) admits it. -/
theorem get_rtcp_emits_before_interval :
    ((rtcpCounterexampleConsumer.GetRtcp {} 10000).1.GetRtcp {} 10900).2.senderReports.length = 1
    ∧ (rtcpCounterexampleConsumer.GetRtcp {} 10000).2.senderReports.length = 1
    ∧ (rtcpCounterexampleConsumer.GetRtcp {} 10000).1.lastRtcpSentTime = 10000
    ∧ 10900 - (rtcpCounterexampleConsumer.GetRtcp {} 10000).1.lastRtcpSentTime
        < (rtcpCounterexampleConsumer.GetRtcp {} 10000).1.maxRtcpInterval := by
  refine ⟨?_, ?_, ?_, ?_⟩ <;> decide

/-- Witness for the amended C3: the 900 ms emission above satisfies the 23/20
bound. -/
theorem get_rtcp_min_spacing_witness :
    23 * (10900 - (rtcpCounterexampleConsumer.GetRtcp {} 10000).1.lastRtcpSentTime)
      ≥ 20 * (rtcpCounterexampleConsumer.GetRtcp {} 10000).1.maxRtcpInterval :=
  get_rtcp_min_spacing (rtcpCounterexampleConsumer.GetRtcp {} 10000).1 {} 10900
    (by decide) (by decide) (by decide)

/-- C4: when an encoding context is attached and `packet.EncodePayload` fails, the
call records the packet's original sequence number and timestamp as dropped in both
remappers and returns without emitting anything, leaving the packet unchanged. -/
theorem encode_payload_failure_drops (c : SimpleConsumer) (now : Nat) (p : RtpPacket)
    (ctx : EncodingContext)
    (hact : c.active = true)
    (hpt : c.supportedCodecPayloadTypes.contains p.payloadType = true)
    (hgate : (c.syncRequired && c.keyFrameSupported && !p.isKeyFrame) = false)
    (hctx : c.encodingContext = some ctx)
    (henc : ctx.encode p.payload = none) :
    c.SendRtpPacket now p
      = (let c1 := if c.syncRequired then c.syncStep now p else c
         ({ c1 with
              rtpSeqManager := c1.rtpSeqManager.Drop p.sequenceNumber
              rtpTimestampManager := c1.rtpTimestampManager.Drop p.timestamp },
           p, none)) := by
  have hmem : p.payloadType ∈ c.supportedCodecPayloadTypes := by simpa using hpt
  have hrun : c.SendRtpPacket now p
      = (if c.syncRequired then c.syncStep now p else c).sendCore p := by
    simp [SimpleConsumer.SendRtpPacket, hact, hpt, hmem, hgate]
  rw [hrun]
  cases hs : c.syncRequired
  · simp [SimpleConsumer.sendCore, hctx, RtpPacket.EncodePayload, henc]
  · have hctx1 : (c.syncStep now p).encodingContext = some ctx.SyncRequired := by
      rw [syncStep_encodingContext, hctx]
      rfl
    simp [SimpleConsumer.sendCore, hctx1, RtpPacket.EncodePayload,
      EncodingContext.SyncRequired, henc]

/-- Witness for C4 at a concrete consumer whose encoding context refuses the
payload: nothing is emitted. -/
theorem encode_payload_failure_drops_witness :
    (encodeFailureConsumer.SendRtpPacket 0 encodeFailurePacket).2.2 = none := by
  rw [encode_payload_failure_drops encodeFailureConsumer 0 encodeFailurePacket
    { encode := fun _ => none } rfl rfl rfl rfl rfl]

/-- C5: `Resumed(wasProducer)` always sets `syncRequired`, invokes
`RequestKeyFrame()` exactly when `wasProducer` is false, and a producer-triggered
resume forwards no key-frame request. -/
theorem resumed_sets_sync_and_requests_key_frame (c : SimpleConsumer) (w : Bool) :
    (c.Resumed w).consumer.syncRequired = true
    ∧ (c.Resumed w).calledRequestKeyFrame = !w
    ∧ (w = true → (c.Resumed w).keyFrameRequest = none) := by
  cases w <;> simp [SimpleConsumer.Resumed]

/-- Witness for C5 at a concrete consumer, both trigger kinds. -/
theorem resumed_sets_sync_and_requests_key_frame_witness :
    (SimpleConsumer.Resumed {} true).keyFrameRequest = none :=
  (resumed_sets_sync_and_requests_key_frame {} true).2.2 rfl

/-- C6: `GetExpectedPackets` returns `(cycles + maxSeq) - baseSeq + 1` (exactly, for
every state within the field ranges of the C++ types where the `uint32` expression does not
wrap), and in particular the cycle-wrap scenario `maxSeq = 5`, `cycles = 65536`,
`baseSeq = 65530` yields 12 expected packets. -/
theorem get_expected_packets_formula (s : RtpStreamState)
    (hms : s.maxSeq < uint16Mod) (hc : s.cycles < uint32Mod) (hb : s.baseSeq < uint32Mod)
    (hsum : s.cycles + s.maxSeq < uint32Mod)
    (hle : s.baseSeq ≤ s.cycles + s.maxSeq)
    (hov : s.cycles + s.maxSeq + 1 - s.baseSeq < uint32Mod) :
    s.GetExpectedPackets = s.cycles + s.maxSeq - s.baseSeq + 1
    ∧ RtpStreamState.GetExpectedPackets { maxSeq := 5, cycles := 65536, baseSeq := 65530 }
        = 12 := by
  constructor
  · unfold RtpStreamState.GetExpectedPackets
    simp only [uint16Mod, uint32Mod] at *
    omega
  · decide

/-- Witness for C6 at the cycle-wrap scenario state itself. -/
theorem get_expected_packets_formula_witness :
    RtpStreamState.GetExpectedPackets { maxSeq := 5, cycles := 65536, baseSeq := 65530 }
      = 65536 + 5 - 65530 + 1 :=
  (get_expected_packets_formula { maxSeq := 5, cycles := 65536, baseSeq := 65530 }
      (by decide) (by decide) (by decide) (by decide) (by decide) (by decide)).1

/-- C7: constructing a `SimpleConsumer` fails with the `TypeError`
"invalid consumableRtpEncodings with size != 1" — before any `RtpStreamSend` is
created — whenever `consumableRtpEncodings` does not contain exactly one encoding,
and it can only succeed when it does. -/
theorem constructor_requires_single_encoding (kind : MediaKind)
    (encs : List RtpEncodingParameters) (ssrc : Nat) :
    (encs.length ≠ 1 →
      simpleConsumerConstructor kind encs ssrc
        = Except.error (MsError.typeError "invalid consumableRtpEncodings with size != 1"))
    ∧ ((simpleConsumerConstructor kind encs ssrc).isOk = true → encs.length = 1) := by
  constructor
  · intro h
    simp [simpleConsumerConstructor, h]
  · intro h
    by_contra hne
    simp [simpleConsumerConstructor, hne, Except.isOk, Except.toBool] at h
  
/-- Witness for C7: the empty encoding list is rejected with the `TypeError`. -/
theorem constructor_requires_single_encoding_witness :
    simpleConsumerConstructor MediaKind.video [] 0
      = Except.error (MsError.typeError "invalid consumableRtpEncodings with size != 1") :=
  (constructor_requires_single_encoding MediaKind.video [] 0).1 (by decide)

/-- C8 (amended): serialising with `FillJson` and re-parsing is the identity on every
`RtpEncodingParameters` value that satisfies the representation invariants of the
C++ class: `codecPayloadType` is 0 when `hasCodecPayloadType` is unset, `rtx` is the
default when `hasRtx` is unset, `maxFramerate` is non-negative, and the numeric
fields lie within their C++ integer ranges. -/
theorem encoding_parameters_roundtrip (e : RtpEncodingParameters)
    (h1 : e.hasCodecPayloadType = false → e.codecPayloadType = 0)
    (h2 : e.hasRtx = false → e.rtx = {})
    (h3 : 0 ≤ e.maxFramerate)
    (h4 : e.ssrc < uint32Mod) (h5 : e.codecPayloadType < 256)
    (h6 : e.maxBitrate < uint32Mod) (h7 : e.rtx.ssrc < uint32Mod) :
    RtpEncodingParameters.ofJson e.fillJson = e := by
  obtain ⟨es, erid, ecpt, ehcpt, ⟨ers⟩, ehrtx, emb, emf⟩ := e
  simp only at h1 h2 h3 h4 h5 h6 h7
  simp only [RtpEncodingParameters.fillJson, RtpEncodingParameters.ofJson,
    RtpRtxParameters.fillJson, RtpRtxParameters.ofJson, RtpEncodingParameters.mk.injEq]
  refine ⟨?_, ?_, ?_, ?_, ?_, ?_, ?_, ?_⟩
  · by_cases hs : es = 0 <;> simp [hs, Nat.mod_eq_of_lt h4]
  · by_cases hr : erid = "" <;> simp [hr]
  · cases ehcpt
    · simp [h1 rfl]
    · simp [Nat.mod_eq_of_lt h5]
  · cases ehcpt <;> simp
  · cases ehrtx
    · have h0 := h2 rfl
      simp_all [RtpRtxParameters.mk.injEq]
    · by_cases hrs : ers = 0 <;> simp [hrs, Nat.mod_eq_of_lt h7]
  · cases ehrtx <;> simp
  · by_cases hm : emb = 0 <;> simp [hm, Nat.mod_eq_of_lt h6]
  · by_cases hf : 0 < emf
    · simp [hf]
    · have h0 : emf = 0 := le_antisymm (not_lt.mp hf) h3
      simp [hf, h0]

/-- Counterexample to C8 as stated: the value with `maxFramerate = -1` (producible by
the parser, since it accepts any number for `maxFramerate`) does not survive the
round-trip — `FillJson` omits non-positive framerates, so the re-parsed value has
`maxFramerate = 0`. -/
theorem encoding_parameters_roundtrip_fails_on_negative_framerate :
    RtpEncodingParameters.ofJson negativeFramerateEncoding.fillJson
        ≠ negativeFramerateEncoding
    ∧ (RtpEncodingParameters.ofJson negativeFramerateEncoding.fillJson).maxFramerate = 0
    ∧ negativeFramerateEncoding.maxFramerate = -1 := by
  refine ⟨?_, ?_, ?_⟩ <;> decide

/-- Witness for the amended C8 at a value exercising every member. -/
theorem encoding_parameters_roundtrip_witness :
    RtpEncodingParameters.ofJson
        (RtpEncodingParameters.fillJson
          { ssrc := 1111, rid := "hi", codecPayloadType := 96, hasCodecPayloadType := true,
            rtx := { ssrc := 2222 }, hasRtx := true, maxBitrate := 100000,
            maxFramerate := 30 })
      = { ssrc := 1111, rid := "hi", codecPayloadType := 96, hasCodecPayloadType := true,
          rtx := { ssrc := 2222 }, hasRtx := true, maxBitrate := 100000,
          maxFramerate := 30 } :=
  encoding_parameters_roundtrip _ (by decide) (by decide) (by decide) (by decide)
    (by decide) (by decide) (by decide)

/-- C10: `RequestKeyFrame` forwards `OnConsumerKeyFrameRequested` with the first
consumable encoding ssrc exactly when the consumer is active, a producer stream is
bound and the kind is video; otherwise it is a no-op, so an audio consumer emits no
key-frame request from any of its trigger paths (`ReceiveKeyFrameRequest`,
`TransportConnected`, `Resumed`, the `CONSUMER_REQUEST_KEY_FRAME` request). -/
theorem request_key_frame_guard (c : SimpleConsumer) :
    c.RequestKeyFrame
      = (if c.active = true ∧ c.hasProducerRtpStream = true ∧ c.kind = MediaKind.video
          then some c.consumableSsrc else none)
    ∧ (c.kind = MediaKind.audio →
        c.RequestKeyFrame = none
        ∧ c.TransportConnected = none
        ∧ c.ReceiveKeyFrameRequest = none
        ∧ handleConsumerRequestKeyFrame c = none
        ∧ (c.Resumed false).keyFrameRequest = none
        ∧ (c.Resumed true).keyFrameRequest = none) := by
  have hmain : c.RequestKeyFrame
      = (if c.active = true ∧ c.hasProducerRtpStream = true ∧ c.kind = MediaKind.video
          then some c.consumableSsrc else none) := by
    by_cases h : c.active = true ∧ c.hasProducerRtpStream = true ∧ c.kind = MediaKind.video
    · obtain ⟨ha, hb, hk⟩ := h
      simp [SimpleConsumer.RequestKeyFrame, ha, hb, hk]
    · have hor : c.active = false ∨ c.hasProducerRtpStream = false
          ∨ c.kind ≠ MediaKind.video := by
        by_cases ha : c.active = true
        · by_cases hb : c.hasProducerRtpStream = true
          · by_cases hk : c.kind = MediaKind.video
            · exact absurd ⟨ha, hb, hk⟩ h
            · exact Or.inr (Or.inr hk)
          · exact Or.inr (Or.inl (by simpa using hb))
        · exact Or.inl (by simpa using ha)
      simp [SimpleConsumer.RequestKeyFrame, hor, h]
  refine ⟨hmain, ?_⟩
  intro hk
  have hnv : ¬ c.kind = MediaKind.video := by
    rw [hk]
    intro hcontra
    cases hcontra
  have hreq : c.RequestKeyFrame = none := by
    rw [hmain]
    simp [hnv]
  have hres : ∀ w, (c.Resumed w).keyFrameRequest = none := by
    intro w
    cases w <;>
      simp [SimpleConsumer.Resumed, SimpleConsumer.RequestKeyFrame, hnv]
  refine ⟨hreq, hreq, ?_, hreq, hres false, hres true⟩
  by_cases ha : c.active = false <;>
    simp [SimpleConsumer.ReceiveKeyFrameRequest, ha, hreq]

/-- Witness for C10 at a concrete active audio consumer with a bound producer
stream: still no key-frame request. -/
theorem request_key_frame_guard_witness :
    SimpleConsumer.RequestKeyFrame
        { kind := MediaKind.audio, active := true, hasProducerRtpStream := true }
      = none :=
  ((request_key_frame_guard
      { kind := MediaKind.audio, active := true, hasProducerRtpStream := true }).2 rfl).1

end Mediasoup
